import Mathlib

/-
Shallow embedding of the market-data collector and monitor scripts
(`market_yfinance_collector.py`, `monitor.py`).

Modelling conventions:
* Python floats are modelled as rationals (`ℚ`).  The scripts only compare,
  add, multiply and divide the values they handle, so exact rational
  arithmetic is a faithful model of the paths the theorems exercise.
* A pandas cell is modelled by `PdVal`: a numeric value (`num`), a NaN/NA
  (`nan`), or a value on which `float()` raises (`other`).  Strings that
  parse as numbers are represented directly as `num`.
* Python dictionaries / pandas label lookup are modelled by association
  lists with `dictGet` (first match wins, `none` when the key is absent).
* `random.uniform(0.0, 2.0)` is modelled by passing the drawn jitter as an
  explicit argument constrained to `[0, 2]`.
-/

/-- A pandas cell value as seen through Python numeric coercion:
a number, a NaN/NA, or a non-convertible value (`float()` raises). -/
inductive PdVal where
  | num (q : ℚ)
  | nan
  | other (s : String)
deriving DecidableEq

/-- Association-list lookup (first binding wins), modelling Python
`dict` / pandas label access. -/
def dictGet {α β : Type} [DecidableEq α] : List (α × β) → α → Option β
  | [], _ => none
  | (k, v) :: rest, key => if key = k then some v else dictGet rest key

namespace Collector

/-- The `ASSETS` table of `market_yfinance_collector.py`:
logical asset name paired with the provider ticker symbol. -/
def ASSETS : List (String × String) :=
  [("USDJPY", "JPY=X"), ("BTC", "BTC-USD"), ("Gold", "GC=F"),
   ("US10Y", "^TNX"), ("Oil", "CL=F"), ("VIX", "^VIX")]

/-- Model of `_expected_columns`: run identifiers followed by five columns per asset. -/
def expected_columns : List String :=
  ["run_id", "timestamp_jst"] ++
    ASSETS.flatMap (fun p =>
      [p.1, p.1 ++ "_missing", p.1 ++ "_source", p.1 ++ "_date", p.1 ++ "_fail"])

/-- Model of `EXPECTED_COLS = _expected_columns()`. -/
def EXPECTED_COLS : List String := expected_columns

/-- Python `s or fallback` on strings: the fallback replaces the empty string. -/
def pyOr (s fallback : String) : String := if s = "" then fallback else s

/-- The column layout of a provider data frame: either flat columns or a
two-level (MultiIndex) column key. -/
inductive Columns where
  | flat (cols : List (String × List PdVal))
  | multi (cols : List ((String × String) × List PdVal))

/-- Number of columns of a layout. -/
def Columns.colCount : Columns → Nat
  | .flat cs => cs.length
  | .multi cs => cs.length

/-- A provider data frame: a date index (dates rendered as strings, as
`str(df.index[-1])` would see them) and its columns. -/
structure Frame where
  index : List String
  cols : Columns

/-- pandas `df.empty`: true when either axis has length zero. -/
def Frame.isEmpty (f : Frame) : Bool :=
  f.index.isEmpty || f.cols.colCount == 0

/-- Model of `pd.to_numeric(s, errors="coerce").dropna()`: keep the numeric entries,
drop NaN and non-convertible ones. -/
def toNumericDropna (s : List PdVal) : List ℚ :=
  s.filterMap (fun c => match c with | .num q => some q | _ => none)

/-- Column selection of `_extract_last_close`: on a MultiIndex try
`("Close", ticker)` then `(ticker, "Close")`, on flat columns require
`"Close"`; otherwise the typed failure reason. -/
def selectCloseSeries (cols : Columns) (ticker : String) :
    Option (List PdVal) × String :=
  match cols with
  | .multi cs =>
    match dictGet cs ("Close", ticker) with
    | some s => (some s, "")
    | none =>
      match dictGet cs (ticker, "Close") with
      | some s => (some s, "")
      | none => (none, "CloseNotFoundForTicker")
  | .flat cs =>
    match dictGet cs "Close" with
    | some s => (some s, "")
    | none => (none, "CloseMissing")

/-- Tail of `_extract_last_close`: coerce to numeric, drop NaN, take the
last entry, and reject non-positive prices. -/
def finishClose (s : List PdVal) : Option ℚ × String :=
  match (toNumericDropna s).getLast? with
  | none => (none, "NoNumericClose")
  | some v => if 0 < v then (some v, "") else (none, "NonPositive")

/-- Model of `_extract_last_close(df, ticker)`: either a positive last close or a
typed failure reason.  (The Python `except` fallback `ExtractErr:<kind>` has
no counterpart here: every operation of the function is total in this
model, so no exception can arise.) -/
def extract_last_close (df : Option Frame) (ticker : String) :
    Option ℚ × String :=
  match df with
  | none => (none, "EmptyDF")
  | some f =>
    if f.isEmpty then (none, "EmptyDF")
    else
      match selectCloseSeries f.cols ticker with
      | (some s, _) => finishClose s
      | (none, reason) => (none, reason)

/-- The per-asset record written into the primary log row
(dataclass `AssetResult`). -/
structure AssetResult where
  price : ℚ
  missing : Nat
  source : String
  date : String
  fail : String
deriving DecidableEq

/-- One provider download attempt: `_yf_download_multi` returns either a
frame (`df`) or `None` with the exception kind in `err`. -/
structure Download where
  df : Option Frame
  err : String

/-- Model of `str(df.index[-1])[:10]` guarded by the non-empty check (empty string on
any failure). -/
def dateStrOf (f : Frame) : String :=
  if f.isEmpty then "" else ((f.index.getLast?).getD "").take 10

/-- The result assigned to one asset during one attempt of the `collect`
loop: download failure, extraction failure, or a fetched price. -/
def resultForAsset (d : Download) (ticker : String) : AssetResult :=
  match d.df with
  | none => ⟨0, 1, "yfinance", "", pyOr d.err "DownloadFailed"⟩
  | some f =>
    match extract_last_close (some f) ticker with
    | (some v, _) => ⟨v, 0, "yfinance", dateStrOf f, ""⟩
    | (none, why) => ⟨0, 1, "yfinance", "", pyOr why "Unknown"⟩

/-- The full results map assigned by one attempt of the `collect` loop
(every asset is overwritten on every attempt). -/
def attemptResults (d : Download) : List (String × AssetResult) :=
  ASSETS.map (fun p => (p.1, resultForAsset d p.2))

/-- Model of `all_ok`: the attempt resolved every asset. -/
def allOkB (d : Download) : Bool :=
  ASSETS.all (fun p => (resultForAsset d p.2).missing == 0)

/-- The results map left by the retry loop of `collect`, given the outcome
each attempt would produce: stop at the first fully successful attempt,
otherwise keep the results of the final attempt. -/
def finalResults : List Download → List (String × AssetResult)
  | [] => []
  | [d] => attemptResults d
  | d :: rest => if allOkB d then attemptResults d else finalResults rest

/-- Model of `MAX_RETRIES`. -/
def MAX_RETRIES : Nat := 4

/-- Model of `BASE_SLEEP` (seconds). -/
def BASE_SLEEP : ℚ := 15

/-- Model of `sleep_sec = 0.0 if all_ok else (BASE_SLEEP * (2 ** (attempt - 1)))`. -/
def sleep_sec (all_ok : Bool) (attempt : Nat) : ℚ :=
  if all_ok then 0 else BASE_SLEEP * 2 ^ (attempt - 1)

/-- Model of `_sleep_with_jitter(sec)`: it sleeps `sec + random.uniform(0.0, 2.0)`; the
drawn jitter is passed explicitly. -/
def sleep_with_jitter (sec jitter : ℚ) : ℚ := sec + jitter

/-- A cell of the primary log row: float, int or string. -/
inductive RowVal where
  | f (q : ℚ)
  | i (n : Nat)
  | s (x : String)
deriving DecidableEq

/-- The row dictionary built at the end of `collect`, in insertion order:
`run_id`, `timestamp_jst`, then five cells per asset, with the
`results.get(a, AssetResult(0.0, 1, "missing", "", "NoResult"))` default. -/
def buildRow (run_id ts : String) (results : List (String × AssetResult)) :
    List (String × RowVal) :=
  [("run_id", RowVal.s run_id), ("timestamp_jst", RowVal.s ts)] ++
    ASSETS.flatMap (fun p =>
      let r := (dictGet results p.1).getD ⟨0, 1, "missing", "", "NoResult"⟩
      [(p.1, RowVal.f r.price),
       (p.1 ++ "_missing", RowVal.i r.missing),
       (p.1 ++ "_source", RowVal.s r.source),
       (p.1 ++ "_date", RowVal.s r.date),
       (p.1 ++ "_fail", RowVal.s r.fail)])

end Collector

namespace Monitor

/-- The tracked asset names of `monitor.py`. -/
def MONITOR_ASSETS : List String :=
  ["USDJPY", "BTC", "Gold", "US10Y", "Oil", "VIX"]

/-- Model of `MAX_PCT_JUMP_WARN`: per-asset jump-warning thresholds. -/
def MAX_PCT_JUMP_WARN : List (String × ℚ) :=
  [("USDJPY", 5/100), ("BTC", 20/100), ("Gold", 10/100),
   ("US10Y", 20/100), ("Oil", 30/100), ("VIX", 1)]

/-- Python `abs` on a rational. -/
def pyAbs (q : ℚ) : ℚ := if q < 0 then -q else q

/-- Python `int(q)` truncates toward zero. -/
def pyTrunc (q : ℚ) : ℤ := if 0 ≤ q then ⌊q⌋ else ⌈q⌉

/-- Model of `_as_float`: numeric cells pass through, NaN maps to `0.0`
(`pd.isna` branch), non-convertible values map to `0.0` (the `except`
branch). -/
def as_float (x : PdVal) : ℚ :=
  match x with
  | .num q => q
  | .nan => 0
  | .other _ => 0

/-- Model of `_as_int`: NaN maps to `0`, numbers truncate toward zero, and
non-convertible values map to `0` (the `except` branch). -/
def as_int (x : PdVal) : ℤ :=
  match x with
  | .num q => pyTrunc q
  | .nan => 0
  | .other _ => 0

/-- One row of the primary log as the monitor sees it after `read_csv`. -/
abbrev Row : Type := List (String × PdVal)

/-- pandas `Series.get(key, default)`: the labelled cell, or the default
when the label is absent. -/
def rowGet (r : Row) (k : String) (d : PdVal) : PdVal :=
  (dictGet r k).getD d

/-- The per-asset missing classification of `main`:
`is_missing = not (ok == 1 and v > 0)` with
`v = _as_float(latest.get(a, 0.0))` and
`ok = _as_int(latest.get(f"{a}_ok", 0))`. -/
def isMissingB (latest : Row) (a : String) : Bool :=
  let v := as_float (rowGet latest a (.num 0))
  let ok := as_int (rowGet latest (a ++ "_ok") (.num 0))
  ! (decide (ok = 1) && decide (0 < v))

/-- The jump-warning of `main` (warning 2): only when a previous row
exists, the asset is not missing in the latest row, the previous value is
positive and the asset has a configured threshold; the comparison is the
strict `pct > thr`. -/
def jumpWarnB (latest : Row) (prev : Option Row) (a : String) : Bool :=
  match prev with
  | none => false
  | some p =>
    if isMissingB latest a then false
    else
      let v := as_float (rowGet latest a (.num 0))
      let pv := as_float (rowGet p a (.num 0))
      if 0 < pv then
        match dictGet MAX_PCT_JUMP_WARN a with
        | some thr => decide (thr < pyAbs (v - pv) / pv)
        | none => false
      else false

/-- Model of `_get_latest_rows`: the last row and, when at least two rows exist,
the immediately preceding one (`df.iloc[-2]`); `none` on an empty frame. -/
def get_latest_rows (df : List Row) : Option (Row × Option Row) :=
  match df.getLast? with
  | none => none
  | some l => some (l, df.dropLast.getLast?)

/-- The previous value the monitor feeds into the jump check for asset
`a`: the coerced cell of `df.iloc[-2]`, when that row exists. -/
def prevValueUsed (df : List Row) (a : String) : Option ℚ :=
  match get_latest_rows df with
  | none => none
  | some (_, none) => none
  | some (_, some p) => some (as_float (rowGet p a (.num 0)))

/-- Modelled from the spec: `previousGoodValue` is the value of the most
recent row before the latest in which the asset was not missing (missing
rows are skipped over).  This definition follows the spec's words, for
comparison with `prevValueUsed`, which follows the code. -/
def previousGoodValueSpec (df : List Row) (a : String) : Option ℚ :=
  ((df.dropLast.filter (fun r => ! isMissingB r a)).getLast?).map
    (fun r => as_float (rowGet r a (.num 0)))

/-- Whether the monitor emits the jump warning for asset `a` on frame
`df`. -/
def monitorJumpWarn (df : List Row) (a : String) : Bool :=
  match get_latest_rows df with
  | none => false
  | some (l, p) => jumpWarnB l p a

end Monitor

namespace Collector

/-- The observables of an on-disk CSV file that
`_ensure_csv_header_or_quarantine` branches on: whether the file has size
zero, its first line, the column list `pd.read_csv(..., nrows=1)` yields
(or the exception kind it raises), and whether the full-body
`pd.read_csv` succeeds (or its exception kind). -/
structure CsvFile where
  sizeZero : Bool
  firstLine : String
  headerParse : Except String (List String)
  bodyParse : Except String Unit

/-- The expected first line under `QUOTE_ALL`:
`",".join(f'"{c}"' for c in EXPECTED_COLS)`. -/
def expectedHeaderLine : String :=
  String.intercalate "," (EXPECTED_COLS.map (fun c => "\"" ++ c ++ "\""))

/-- Model of `_ensure_csv_header_or_quarantine`: returns the file left at the
original path and, when the file was quarantined, the moved file with the
logged reason.  An absent or size-zero file is left untouched; a verbatim
header match is followed by a body-parse check; otherwise a structural
header parse decides between keeping the file and quarantining it. -/
def ensure_csv_header_or_quarantine (file : Option CsvFile) :
    Option CsvFile × Option (CsvFile × String) :=
  match file with
  | none => (none, none)
  | some f =>
    if f.sizeZero then (some f, none)
    else if f.firstLine = expectedHeaderLine then
      match f.bodyParse with
      | .ok _ => (some f, none)
      | .error e => (none, some (f, "parse_fail:" ++ e))
    else
      match f.headerParse with
      | .ok cols =>
        if cols = EXPECTED_COLS then (some f, none)
        else (none, some (f, "header_mismatch"))
      | .error e => (none, some (f, "read_fail:" ++ e))

end Collector

/-- A three-row log for exercising the monitor's previous-row selection:
the asset was good (100), then missing, then good again (200). -/
def exRowGood1 : Monitor.Row := [("BTC", PdVal.num 100), ("BTC_ok", PdVal.num 1)]

/-- The middle row of `exLog`: the asset is missing (value 0, ok 0). -/
def exRowMissing : Monitor.Row := [("BTC", PdVal.num 0), ("BTC_ok", PdVal.num 0)]

/-- The latest row of `exLog`: the asset is good again with value 200. -/
def exRowGood2 : Monitor.Row := [("BTC", PdVal.num 200), ("BTC_ok", PdVal.num 1)]

/-- The three-row log `[good 100, missing, good 200]`. -/
def exLog : List Monitor.Row := [exRowGood1, exRowMissing, exRowGood2]

/-- A non-empty file whose first line is not the expected header and whose
structural parse yields a single wrong column. -/
def exBadFile : Collector.CsvFile :=
  ⟨false, "bogus", Except.ok ["a"], Except.ok ()⟩

/-- A worst-case run: every one of the four attempts fails to download. -/
def exDownloads : List Collector.Download :=
  [⟨none, "HTTPError"⟩, ⟨none, "HTTPError"⟩, ⟨none, "HTTPError"⟩,
   ⟨none, "HTTPError"⟩]

/-- The record such a run leaves for each asset. -/
def exFailedResult : Collector.AssetResult :=
  ⟨0, 1, "yfinance", "", "HTTPError"⟩

/-- Claim C1: the single row appended to the primary log has exactly the
fixed expected columns (`run_id`, `timestamp_jst`, then value, `_missing`,
`_source`, `_date`, `_fail` for each of the six assets — 32 columns) in
exactly that order, for every possible results map. -/
theorem C1_row_width_invariant (run_id ts : String)
    (results : List (String × Collector.AssetResult)) :
    (Collector.buildRow run_id ts results).map Prod.fst =
      Collector.EXPECTED_COLS ∧
    (Collector.buildRow run_id ts results).length = 32 ∧
    Collector.EXPECTED_COLS.length = 32 := by
  refine ⟨rfl, rfl, rfl⟩

/-- Claim C3 counterexample: the claimed bound does not exist.  The code
computes `BASE_SLEEP * (2 ** (attempt - 1))` with no `min(maxDelay, ...)`:
no constant bounds the pre-jitter delay over all attempt numbers, so the
"capped at a configured maximum" part of the claim is false. -/
theorem C3_counterexample :
    ¬ ∃ M : ℚ, ∀ n : ℕ, 1 ≤ n → Collector.sleep_sec false n ≤ M := by
  rintro ⟨M, hM⟩
  obtain ⟨k, hk⟩ := exists_nat_gt M
  have h1 := hM (k + 1) (by omega)
  have h2 : (k : ℚ) < 2 ^ k := by exact_mod_cast Nat.lt_two_pow k
  have hp : (0:ℚ) < 2 ^ k := by positivity
  simp only [Collector.sleep_sec, Collector.BASE_SLEEP, if_false,
    Nat.add_sub_cancel, Bool.false_eq_true] at h1
  nlinarith

/-- Claim C3 (amended): on a failed attempt `n ≥ 1` the pre-jitter delay
is exactly `BASE_SLEEP * 2 ^ (n - 1)` with no maximum cap; it is
non-decreasing in the attempt number, never negative, and the jittered
delay adds a uniform draw from `[0, 2]`, so it lies between the pre-jitter
delay and that delay plus two seconds (in particular it is never
negative). -/
theorem C3_backoff_uncapped_monotone (n m : ℕ) (j : ℚ)
    (h1 : 1 ≤ n) (h2 : n ≤ m) (hj0 : 0 ≤ j) (hj2 : j ≤ 2) :
    Collector.sleep_sec false n = Collector.BASE_SLEEP * 2 ^ (n - 1) ∧
    Collector.sleep_sec false n ≤ Collector.sleep_sec false m ∧
    0 ≤ Collector.sleep_sec false n ∧
    Collector.sleep_sec false n ≤
      Collector.sleep_with_jitter (Collector.sleep_sec false n) j ∧
    Collector.sleep_with_jitter (Collector.sleep_sec false n) j ≤
      Collector.sleep_sec false n + 2 := by
  have hpow : (2:ℚ) ^ (n - 1) ≤ 2 ^ (m - 1) :=
    pow_le_pow_right₀ (by norm_num) (by omega)
  have hp : (0:ℚ) ≤ 2 ^ (n - 1) := by positivity
  refine ⟨rfl, ?_, ?_, ?_, ?_⟩
  · simp only [Collector.sleep_sec, Collector.BASE_SLEEP, if_false,
      Bool.false_eq_true]
    nlinarith
  · simp only [Collector.sleep_sec, Collector.BASE_SLEEP, if_false,
      Bool.false_eq_true]
    nlinarith
  · simp only [Collector.sleep_with_jitter]
    linarith
  · simp only [Collector.sleep_with_jitter]
    linarith

/-- Witness for C3 at `n = 1`, `m = 3`, `j = 1`. -/
theorem C3_backoff_uncapped_monotone_witness :
    Collector.sleep_sec false 1 = Collector.BASE_SLEEP * 2 ^ (1 - 1) ∧
    Collector.sleep_sec false 1 ≤ Collector.sleep_sec false 3 ∧
    0 ≤ Collector.sleep_sec false 1 ∧
    Collector.sleep_sec false 1 ≤
      Collector.sleep_with_jitter (Collector.sleep_sec false 1) 1 ∧
    Collector.sleep_with_jitter (Collector.sleep_sec false 1) 1 ≤
      Collector.sleep_sec false 1 + 2 :=
  C3_backoff_uncapped_monotone 1 3 1 (by norm_num) (by norm_num)
    (by norm_num) (by norm_num)

/-- Claim C4 counterexample: with the configured USDJPY threshold `0.05`,
previous value 100 and new value 105 the relative change equals the
threshold exactly, yet the monitor raises no jump warning — the boundary
is exclusive (`pct > thr`), not inclusive as claimed. -/
theorem C4_counterexample :
    dictGet Monitor.MAX_PCT_JUMP_WARN "USDJPY" = some (5/100) ∧
    Monitor.pyAbs ((105:ℚ) - 100) / 100 = 5/100 ∧
    Monitor.jumpWarnB [("USDJPY", PdVal.num 105), ("USDJPY_ok", PdVal.num 1)]
      (some [("USDJPY", PdVal.num 100)]) "USDJPY" = false := by
  refine ⟨rfl, by norm_num [Monitor.pyAbs], by with_unfolding_all rfl⟩

/-- Claim C4 (amended): when the asset is not missing in the latest row,
the previous value is positive and a threshold is configured, the jump
warning is raised exactly when `abs(new - prev) / prev` is **strictly
greater** than the threshold; a relative change exactly equal to the
threshold is not anomalous. -/
theorem C4_strict_threshold (latest p : Monitor.Row) (a : String) (thr : ℚ)
    (hm : Monitor.isMissingB latest a = false)
    (hpv : 0 < Monitor.as_float (Monitor.rowGet p a (.num 0)))
    (hthr : dictGet Monitor.MAX_PCT_JUMP_WARN a = some thr) :
    (Monitor.jumpWarnB latest (some p) a = true ↔
      thr < Monitor.pyAbs (Monitor.as_float (Monitor.rowGet latest a (.num 0)) -
          Monitor.as_float (Monitor.rowGet p a (.num 0))) /
        Monitor.as_float (Monitor.rowGet p a (.num 0))) := by
  simp [Monitor.jumpWarnB, hm, hpv, hthr]

/-- Witness for C4: BTC jumping from 100 to 1000 (relative change 9, above
the BTC threshold 0.2) does raise the warning. -/
theorem C4_strict_threshold_witness :
    dictGet Monitor.MAX_PCT_JUMP_WARN "BTC" = some (20/100) ∧
    Monitor.jumpWarnB [("BTC", PdVal.num 1000), ("BTC_ok", PdVal.num 1)]
      (some [("BTC", PdVal.num 100)]) "BTC" = true :=
  ⟨rfl,
   (C4_strict_threshold [("BTC", PdVal.num 1000), ("BTC_ok", PdVal.num 1)]
      [("BTC", PdVal.num 100)] "BTC" (20/100) (by with_unfolding_all rfl)
      (of_decide_eq_true (by with_unfolding_all rfl)) rfl).mpr
     (of_decide_eq_true (by with_unfolding_all rfl))⟩

/-- Claim C5 counterexample: on the log `[good 100, missing, good 200]`
the monitor feeds the missing middle row's coerced value 0 into the jump
check (so no warning fires), while the most recent prior good value is
100, under which the jump 100 → 200 exceeds the BTC threshold.  The
monitor does not skip over missing rows. -/
theorem C5_counterexample :
    Monitor.prevValueUsed exLog "BTC" = some 0 ∧
    Monitor.previousGoodValueSpec exLog "BTC" = some 100 ∧
    Monitor.prevValueUsed exLog "BTC" ≠
      Monitor.previousGoodValueSpec exLog "BTC" ∧
    Monitor.monitorJumpWarn exLog "BTC" = false ∧
    (20/100 : ℚ) < Monitor.pyAbs ((200:ℚ) - 100) / 100 := by
  refine ⟨by decide, by decide, by decide, by decide, by norm_num [Monitor.pyAbs]⟩

/-- Claim C5 (amended): the previous value the monitor uses for the jump
check is taken only from the immediately preceding row (`df.iloc[-2]`);
when the asset's coerced value there is not positive (for instance the
asset was missing in that row), the jump check is skipped entirely — the
monitor never searches further back for a good value. -/
theorem C5_prev_row_only (df : List Monitor.Row) (l p : Monitor.Row)
    (a : String)
    (h : Monitor.get_latest_rows df = some (l, some p)) :
    Monitor.prevValueUsed df a =
      some (Monitor.as_float (Monitor.rowGet p a (.num 0))) ∧
    (Monitor.as_float (Monitor.rowGet p a (.num 0)) ≤ 0 →
      Monitor.monitorJumpWarn df a = false) := by
  constructor
  · simp [Monitor.prevValueUsed, h]
  · intro hle
    simp only [Monitor.monitorJumpWarn, h, Monitor.jumpWarnB]
    by_cases hm : Monitor.isMissingB l a
    · simp [hm]
    · simp [hm, not_lt.mpr hle]

/-- Witness for C5 on the three-row log: the value used is the middle
row's 0 and no jump warning fires. -/
theorem C5_prev_row_only_witness :
    Monitor.prevValueUsed exLog "BTC" = some 0 ∧
    Monitor.monitorJumpWarn exLog "BTC" = false :=
  ⟨(C5_prev_row_only exLog exRowGood2 exRowMissing "BTC" (by decide)).1,
   (C5_prev_row_only exLog exRowGood2 exRowMissing "BTC" (by decide)).2
     (by decide)⟩

/-- Claim C6: whenever the latest row's cell for an asset is `0.0`,
NaN, negative, or not convertible to a number, the monitor classifies the
asset as missing — whatever the `ok` indicator of the row says (the
statement places no constraint on the `_ok` cell). -/
theorem C6_silent_zero_is_missing (latest : Monitor.Row) (a : String)
    (h : dictGet latest a = some (PdVal.num 0) ∨
         dictGet latest a = some PdVal.nan ∨
         (∃ q, dictGet latest a = some (PdVal.num q) ∧ q < 0) ∨
         (∃ s, dictGet latest a = some (PdVal.other s))) :
    Monitor.isMissingB latest a = true := by
  have hv : Monitor.as_float (Monitor.rowGet latest a (.num 0)) ≤ 0 := by
    rcases h with h | h | ⟨q, h, hq⟩ | ⟨s, h⟩
    · simp [Monitor.rowGet, h, Monitor.as_float]
    · simp [Monitor.rowGet, h, Monitor.as_float]
    · simp only [Monitor.rowGet, h, Option.getD_some, Monitor.as_float]
      linarith
    · simp [Monitor.rowGet, h, Monitor.as_float]
  simp only [Monitor.isMissingB]
  have : decide (0 < Monitor.as_float (Monitor.rowGet latest a (.num 0))) =
      false := by simpa using not_lt.mpr hv
  simp [this]

/-- Witness for C6: value 0 with the `ok` indicator set to 1 is still
classified as missing. -/
theorem C6_silent_zero_is_missing_witness :
    Monitor.isMissingB [("Gold", PdVal.num 0), ("Gold_ok", PdVal.num 1)]
      "Gold" = true :=
  C6_silent_zero_is_missing _ "Gold" (Or.inl rfl)

/-- Claim C10: the monitor's per-asset classification is total over
malformed rows: an absent cell, a NaN cell or a non-convertible cell is
coerced to 0 by `_as_float`/`_as_int` and the asset is classified as
missing rather than any exception being raised. -/
theorem C10_malformed_row_total (latest : Monitor.Row) (a : String)
    (h : dictGet latest a = none ∨
         dictGet latest a = some PdVal.nan ∨
         ∃ s, dictGet latest a = some (PdVal.other s)) :
    Monitor.isMissingB latest a = true ∧
    Monitor.as_float (Monitor.rowGet latest a (.num 0)) = 0 ∧
    Monitor.as_float PdVal.nan = 0 ∧
    (∀ s, Monitor.as_float (PdVal.other s) = 0) ∧
    Monitor.as_int PdVal.nan = 0 ∧
    (∀ s, Monitor.as_int (PdVal.other s) = 0) := by
  have hv : Monitor.as_float (Monitor.rowGet latest a (.num 0)) = 0 := by
    rcases h with h | h | ⟨s, h⟩ <;>
      simp [Monitor.rowGet, h, Monitor.as_float]
  refine ⟨?_, hv, rfl, fun s => rfl, rfl, fun s => rfl⟩
  simp only [Monitor.isMissingB]
  have : decide (0 < Monitor.as_float (Monitor.rowGet latest a (.num 0))) =
      false := by simp [hv]
  simp [this]

/-- Witness for C10 at the empty row: the column is absent, the coerced
value is 0 and the asset is classified as missing. -/
theorem C10_malformed_row_total_witness :
    Monitor.isMissingB ([] : Monitor.Row) "Oil" = true ∧
    Monitor.as_float (Monitor.rowGet ([] : Monitor.Row) "Oil" (.num 0)) = 0 ∧
    Monitor.as_float PdVal.nan = 0 ∧
    (∀ s, Monitor.as_float (PdVal.other s) = 0) ∧
    Monitor.as_int PdVal.nan = 0 ∧
    (∀ s, Monitor.as_int (PdVal.other s) = 0) :=
  C10_malformed_row_total ([] : Monitor.Row) "Oil" (Or.inl rfl)

/-- Claim C9: an existing, non-empty log file whose first line differs
from the expected quoted header and whose structural header parse also
mismatches (or fails) is quarantined, leaving no file at the original
path; an absent or size-zero file is left untouched. -/
theorem C9_schema_guard (f : Collector.CsvFile)
    (h1 : f.sizeZero = false)
    (h2 : f.firstLine ≠ Collector.expectedHeaderLine)
    (h3 : ∀ cols, f.headerParse = Except.ok cols →
      cols ≠ Collector.EXPECTED_COLS) :
    (Collector.ensure_csv_header_or_quarantine (some f)).1 = none ∧
    (Collector.ensure_csv_header_or_quarantine (some f)).2.isSome = true ∧
    Collector.ensure_csv_header_or_quarantine none = (none, none) ∧
    (∀ g : Collector.CsvFile, g.sizeZero = true →
      Collector.ensure_csv_header_or_quarantine (some g) = (some g, none)) := by
  have hmain : (Collector.ensure_csv_header_or_quarantine (some f)).1 = none ∧
      (Collector.ensure_csv_header_or_quarantine (some f)).2.isSome = true := by
    simp only [Collector.ensure_csv_header_or_quarantine, h1, h2]
    cases hh : f.headerParse with
    | ok cols => simp [h3 cols hh]
    | error e => simp
  refine ⟨hmain.1, hmain.2, rfl, ?_⟩
  intro g hg
  simp [Collector.ensure_csv_header_or_quarantine, hg]

/-- Witness for C9 on a concrete bad file. -/
theorem C9_schema_guard_witness :
    (Collector.ensure_csv_header_or_quarantine (some exBadFile)).1 = none ∧
    (Collector.ensure_csv_header_or_quarantine (some exBadFile)).2.isSome =
      true ∧
    Collector.ensure_csv_header_or_quarantine none = (none, none) ∧
    (∀ g : Collector.CsvFile, g.sizeZero = true →
      Collector.ensure_csv_header_or_quarantine (some g) = (some g, none)) :=
  C9_schema_guard exBadFile rfl (by decide)
    (fun cols hc => by
      have h := Except.ok.inj hc
      rw [← h]
      decide)

/-- Claim C7: extraction treats the two MultiIndex key orders
`("Close", symbol)` and `(symbol, "Close")` symmetrically — on identical
underlying data it returns the same price on success and the same failure
reason on failure. -/
theorem C7_shape_symmetry (idx : List String) (s : List PdVal) (sym : String) :
    Collector.extract_last_close
      (some ⟨idx, Collector.Columns.multi [(("Close", sym), s)]⟩) sym =
    Collector.extract_last_close
      (some ⟨idx, Collector.Columns.multi [((sym, "Close"), s)]⟩) sym := by
  by_cases hidx : idx.isEmpty
  · simp [Collector.extract_last_close, Collector.Frame.isEmpty,
      Collector.Columns.colCount, hidx]
  · have hsel1 : Collector.selectCloseSeries
        (Collector.Columns.multi [(("Close", sym), s)]) sym = (some s, "") := by
      simp [Collector.selectCloseSeries, dictGet]
    have hsel2 : Collector.selectCloseSeries
        (Collector.Columns.multi [((sym, "Close"), s)]) sym = (some s, "") := by
      by_cases hs : sym = "Close"
      · subst hs
        simp [Collector.selectCloseSeries, dictGet]
      · have hs' : ¬ ("Close" : String) = sym := fun h => hs h.symm
        simp [Collector.selectCloseSeries, dictGet, Prod.ext_iff, hs, hs']
    simp [Collector.extract_last_close, Collector.Frame.isEmpty,
      Collector.Columns.colCount, hidx, hsel1, hsel2]

/-- When column selection fails, the reason is one of the two typed
selection failures. -/
theorem selectCloseSeries_none_cases (cols : Collector.Columns)
    (ticker rs : String)
    (h : Collector.selectCloseSeries cols ticker = (none, rs)) :
    rs = "CloseNotFoundForTicker" ∨ rs = "CloseMissing" := by
  cases cols with
  | multi cs =>
    unfold Collector.selectCloseSeries at h
    rcases h1 : dictGet cs ("Close", ticker) with _ | s1
    · simp only [h1] at h
      rcases h2 : dictGet cs (ticker, "Close") with _ | s2
      · simp only [h2] at h
        injection h with ha hb
        exact Or.inl hb.symm
      · simp only [h2] at h
        exact absurd h (by simp)
    · simp only [h1] at h
      exact absurd h (by simp)
  | flat cs =>
    unfold Collector.selectCloseSeries at h
    rcases h1 : dictGet cs "Close" with _ | s1
    · simp only [h1] at h
      injection h with ha hb
      exact Or.inr hb.symm
    · simp only [h1] at h
      exact absurd h (by simp)

/-- Claim C8: extraction is total — for every input frame (absent, empty,
all-NaN or otherwise malformed) and every symbol it returns either a
positive price with an empty reason, or no price with one of the typed
failure reasons; it never reports success with a non-positive price. -/
theorem C8_extraction_total (df : Option Collector.Frame) (ticker : String) :
    (∃ v, Collector.extract_last_close df ticker = (some v, "") ∧ 0 < v) ∨
    (∃ reason, Collector.extract_last_close df ticker = (none, reason) ∧
      reason ∈ (["EmptyDF", "CloseNotFoundForTicker", "CloseMissing",
        "NoNumericClose", "NonPositive"] : List String)) := by
  cases df with
  | none => exact Or.inr ⟨"EmptyDF", rfl, by simp⟩
  | some f =>
    rw [Collector.extract_last_close]
    by_cases he : f.isEmpty
    · rw [if_pos he]
      exact Or.inr ⟨"EmptyDF", rfl, by simp⟩
    · rw [if_neg he]
      rcases hsel : Collector.selectCloseSeries f.cols ticker with ⟨os, rs⟩
      cases os with
      | some s =>
        simp only
        rw [Collector.finishClose]
        rcases hl : (Collector.toNumericDropna s).getLast? with _ | v
        · exact Or.inr ⟨"NoNumericClose", rfl, by simp⟩
        · by_cases hv : 0 < v
          · exact Or.inl ⟨v, by simp [hv], hv⟩
          · exact Or.inr ⟨"NonPositive", by simp [hv], by simp⟩
      | none =>
        rcases selectCloseSeries_none_cases f.cols ticker rs hsel with h | h <;>
          subst h
        · exact Or.inr ⟨"CloseNotFoundForTicker", rfl, by simp⟩
        · exact Or.inr ⟨"CloseMissing", rfl, by simp⟩

/-- Python `s or fallback` never yields the empty string when the fallback
is non-empty. -/
theorem pyOr_ne_empty (s fb : String) (h : fb ≠ "") :
    Collector.pyOr s fb ≠ "" := by
  by_cases hs : s = ""
  · simp [Collector.pyOr, hs, h]
  · simp [Collector.pyOr, hs]

/-- The results map the retry loop leaves always comes from one of the
executed attempts. -/
theorem finalResults_from_attempt (ds : List Collector.Download)
    (hne : ds ≠ []) :
    ∃ d ∈ ds, Collector.finalResults ds = Collector.attemptResults d := by
  induction ds with
  | nil => exact absurd rfl hne
  | cons d rest ih =>
    cases rest with
    | nil => exact ⟨d, by simp, rfl⟩
    | cons d2 rest2 =>
      by_cases hok : Collector.allOkB d
      · exact ⟨d, by simp, by simp [Collector.finalResults, hok]⟩
      · obtain ⟨d', hmem, heq⟩ := ih (by simp)
        exact ⟨d', List.mem_cons_of_mem d hmem,
          by simp [Collector.finalResults, hok, heq]⟩

/-- Looking an asset up in one attempt's results yields exactly that
attempt's result for the asset's ticker. -/
theorem attemptResults_lookup (d : Collector.Download) (name ticker : String)
    (hmem : (name, ticker) ∈ Collector.ASSETS) :
    dictGet (Collector.attemptResults d) name =
      some (Collector.resultForAsset d ticker) := by
  simp only [Collector.ASSETS, List.mem_cons, List.not_mem_nil, or_false,
    Prod.mk.injEq] at hmem
  rcases hmem with ⟨h1, h2⟩ | ⟨h1, h2⟩ | ⟨h1, h2⟩ | ⟨h1, h2⟩ | ⟨h1, h2⟩ |
    ⟨h1, h2⟩ <;> subst h1 <;> subst h2 <;> rfl

/-- An attempt result with the missing flag set has price 0, source
`"yfinance"`, and a non-empty typed failure reason. -/
theorem resultForAsset_missing_shape (d : Collector.Download)
    (ticker : String)
    (h : (Collector.resultForAsset d ticker).missing = 1) :
    (Collector.resultForAsset d ticker).price = 0 ∧
    (Collector.resultForAsset d ticker).source = "yfinance" ∧
    (Collector.resultForAsset d ticker).fail ≠ "" := by
  rcases hdf : d.df with _ | f
  · have he : Collector.resultForAsset d ticker =
        ⟨0, 1, "yfinance", "", Collector.pyOr d.err "DownloadFailed"⟩ := by
      unfold Collector.resultForAsset
      rw [hdf]
    rw [he]
    exact ⟨rfl, rfl, pyOr_ne_empty _ _ (by decide)⟩
  · rcases hex : Collector.extract_last_close (some f) ticker with ⟨ov, why⟩
    cases ov with
    | some v =>
      have he : Collector.resultForAsset d ticker =
          ⟨v, 0, "yfinance", Collector.dateStrOf f, ""⟩ := by
        simp [Collector.resultForAsset, hdf, hex]
      rw [he] at h
      simp at h
    | none =>
      have he : Collector.resultForAsset d ticker =
          ⟨0, 1, "yfinance", "", Collector.pyOr why "Unknown"⟩ := by
        simp [Collector.resultForAsset, hdf, hex]
      rw [he]
      exact ⟨rfl, rfl, pyOr_ne_empty _ _ (by decide)⟩

/-- The `_source` cell of the persisted row is the source field of the
asset's recorded result. -/
theorem buildRow_source_cell (run_id ts : String)
    (results : List (String × Collector.AssetResult)) (name ticker : String)
    (hmem : (name, ticker) ∈ Collector.ASSETS) :
    dictGet (Collector.buildRow run_id ts results) (name ++ "_source") =
      some (Collector.RowVal.s
        (((dictGet results name).getD
          ⟨0, 1, "missing", "", "NoResult"⟩).source)) := by
  simp only [Collector.ASSETS, List.mem_cons, List.not_mem_nil, or_false,
    Prod.mk.injEq] at hmem
  rcases hmem with ⟨h1, h2⟩ | ⟨h1, h2⟩ | ⟨h1, h2⟩ | ⟨h1, h2⟩ | ⟨h1, h2⟩ |
    ⟨h1, h2⟩ <;> subst h1 <;> rfl

/-- Claim C2 counterexample: on a run whose four attempts all fail to
download, the persisted record of an unresolved asset carries source
`"yfinance"` — not `"missing"` as claimed (the `"missing"`/`"NoResult"`
default is unreachable, since every attempt assigns every asset). -/
theorem C2_counterexample :
    dictGet (Collector.finalResults exDownloads) "USDJPY" =
      some exFailedResult ∧
    exFailedResult.source = "yfinance" ∧
    dictGet (Collector.buildRow "rid" "ts"
        (Collector.finalResults exDownloads)) "USDJPY_source" =
      some (Collector.RowVal.s "yfinance") ∧
    ("yfinance" : String) ≠ "missing" :=
  ⟨rfl, rfl, rfl, by decide⟩

/-- Claim C2 (amended): an asset still unresolved when the loop ends is
recorded with value 0, the missing flag set, source `"yfinance"`, and a
non-empty failure reason — the reason observed on the attempt whose
results were kept (with the `"DownloadFailed"`/`"Unknown"` fall-backs for
empty reasons); the row's `_source` cell accordingly holds
`"yfinance"`. -/
theorem C2_unresolved_fields (ds : List Collector.Download)
    (name ticker : String) (r : Collector.AssetResult)
    (hne : ds ≠ [])
    (hmem : (name, ticker) ∈ Collector.ASSETS)
    (hr : dictGet (Collector.finalResults ds) name = some r)
    (hmiss : r.missing = 1) :
    r.price = 0 ∧ r.source = "yfinance" ∧ r.fail ≠ "" ∧
    (∀ run_id ts,
      dictGet (Collector.buildRow run_id ts (Collector.finalResults ds))
        (name ++ "_source") = some (Collector.RowVal.s "yfinance")) ∧
    ∃ d ∈ ds, r = Collector.resultForAsset d ticker := by
  obtain ⟨d, hd, heq⟩ := finalResults_from_attempt ds hne
  rw [heq, attemptResults_lookup d name ticker hmem] at hr
  have hre : r = Collector.resultForAsset d ticker := (Option.some.inj hr).symm
  subst hre
  obtain ⟨hp, hsrc, hfail⟩ := resultForAsset_missing_shape d ticker hmiss
  refine ⟨hp, hsrc, hfail, ?_, d, hd, rfl⟩
  intro run_id ts
  rw [buildRow_source_cell run_id ts _ name ticker hmem, heq,
    attemptResults_lookup d name ticker hmem]
  simp [hsrc]

/-- Witness for C2 on the all-fail run. -/
theorem C2_unresolved_fields_witness :
    exFailedResult.price = 0 ∧ exFailedResult.source = "yfinance" ∧
    exFailedResult.fail ≠ "" ∧
    (∀ run_id ts,
      dictGet (Collector.buildRow run_id ts
          (Collector.finalResults exDownloads))
        ("USDJPY" ++ "_source") = some (Collector.RowVal.s "yfinance")) ∧
    ∃ d ∈ exDownloads,
      exFailedResult = Collector.resultForAsset d "JPY=X" :=
  C2_unresolved_fields exDownloads "USDJPY" "JPY=X" exFailedResult
    (by simp [exDownloads]) (by simp [Collector.ASSETS]) rfl rfl
